import Mathlib

/-!
# Verification of the AcuRite 433 MHz decoder (models 00523 and 00609)

Shallow embedding of the pulse classifiers, framing state machines and
device validators of the repository.  Machine integers are modelled as
`Nat` (the C++ code only ever shifts into the low 48 bits of a `uint64_t`,
so no wrap-around can occur); the C++ `float` temperature/humidity values
are modelled as `Rat` (all values reaching comparisons and the payload
conversion are small integer quotients whose float rounding never crosses
a decision boundary, see the comments at the relevant definitions).
-/

namespace Acurite

/-- Signal classes of the 00523 classifier (`ACURITE523_SIGNAL_*`). -/
inductive Sig523 where
  | INV
  | BIT_0_OFF
  | BIT_0_ON
  | BIT_1_OFF
  | BIT_1_ON
  | BITSTREAM_OFF
  | BITSTREAM_ON
  | CHUNK_END
deriving DecidableEq, Repr

/-- Signal classes of the 00609 classifier (`ACURITE609_SIGNAL_*`). -/
inductive Sig609 where
  | INV
  | OFF
  | BIT_0
  | BIT_1
  | BITSTREAM_START
  | BITSTREAM_END
  | CHUNK_START
  | CHUNK_END
deriving DecidableEq, Repr

/-- `Acurite523::Model::get_rfs_type`: classification table of the 00523. -/
def get_rfs_type523 (rfs : Nat) (duration : Nat) : Sig523 :=
  if rfs = 0 then
    if 100 ≤ duration ∧ duration < 300 then Sig523.BIT_0_OFF
    else if 300 ≤ duration ∧ duration < 500 then Sig523.BIT_1_OFF
    else if 500 ≤ duration ∧ duration < 700 then Sig523.BITSTREAM_OFF
    else Sig523.INV
  else if rfs = 1 then
    if 100 ≤ duration ∧ duration < 300 then Sig523.BIT_1_ON
    else if 300 ≤ duration ∧ duration < 500 then Sig523.BIT_0_ON
    else if 500 ≤ duration ∧ duration < 700 then Sig523.BITSTREAM_ON
    else if 20000 ≤ duration ∧ duration < 60000 then Sig523.CHUNK_END
    else Sig523.INV
  else Sig523.INV

/-- `Acurite609::Model::get_rfs_type`: classification table of the 00609. -/
def get_rfs_type609 (rfs : Nat) (duration : Nat) : Sig609 :=
  if rfs = 0 then
    if duration < 1200 then Sig609.OFF else Sig609.INV
  else if rfs = 1 then
    if duration < 300 then Sig609.CHUNK_START
    else if 300 ≤ duration ∧ duration < 1200 then Sig609.BIT_0
    else if 1200 ≤ duration ∧ duration < 3000 then Sig609.BIT_1
    else if 8700 ≤ duration ∧ duration < 9000 then Sig609.BITSTREAM_START
    else if 10000 ≤ duration ∧ duration < 20000 then Sig609.BITSTREAM_END
    else if 20000 ≤ duration ∧ duration < 40000 then Sig609.CHUNK_END
    else Sig609.INV
  else Sig609.INV

/-- Framing state of the 00523 model (fields of `Acurite523::Model`). -/
structure State523 where
  chunk_open : Bool
  bitstream : Nat
  bitstream_size : Nat
  bitstream_open : Bool
  bitstream_opener_count : Nat
  last_rfs_type : Sig523
deriving DecidableEq, Repr

/-- Framing state of the 00609 model (fields of `Acurite609::Model`). -/
structure State609 where
  chunk_open : Bool
  bitstream : Nat
  bitstream_size : Nat
  bitstream_open : Bool
  last_rfs_type : Sig609
deriving DecidableEq, Repr

/-- `Acurite523::Model::open_bitstream`. -/
def open_bitstream523 (s : State523) : State523 :=
  { s with bitstream_open := true, bitstream_size := 0, bitstream := 0 }

/-- `Acurite523::Model::close_bitstream`. -/
def close_bitstream523 (s : State523) : State523 :=
  { s with bitstream_open := false, bitstream_size := 0, bitstream := 0 }

/-- `Acurite523::Model::open_chunk`. -/
def open_chunk523 (s : State523) : State523 :=
  open_bitstream523 { s with chunk_open := true }

/-- `Acurite523::Model::close_chunk`. -/
def close_chunk523 (s : State523) : State523 :=
  close_bitstream523 { s with chunk_open := false }

/-- `Acurite609::Model::open_bitstream`. -/
def open_bitstream609 (s : State609) : State609 :=
  { s with bitstream_open := true, bitstream_size := 0, bitstream := 0 }

/-- `Acurite609::Model::close_bitstream`. -/
def close_bitstream609 (s : State609) : State609 :=
  { s with bitstream_open := false, bitstream_size := 0, bitstream := 0 }

/-- `Acurite609::Model::open_chunk`. -/
def open_chunk609 (s : State609) : State609 :=
  open_bitstream609 { s with chunk_open := true }

/-- `Acurite609::Model::close_chunk`. -/
def close_chunk609 (s : State609) : State609 :=
  close_bitstream609 { s with chunk_open := false }

/-- `Acurite523::Model::clear`: resets the bitstream fields and the opener
count but (per the source comment "Do not reset chunk variables") leaves
`chunk_open` untouched. -/
def clear523 (s : State523) : State523 :=
  { s with bitstream := 0, bitstream_size := 0, last_rfs_type := Sig523.INV,
           bitstream_open := false, bitstream_opener_count := 0 }

/-- `Acurite609::Model::clear`: resets the bitstream fields but (per the
source comment "Only manually reset chunk status in parse_rf") leaves
`chunk_open` untouched. -/
def clear609 (s : State609) : State609 :=
  { s with bitstream := 0, bitstream_size := 0, last_rfs_type := Sig609.INV,
           bitstream_open := false }

/-- Core of `Acurite523::Model::parse_rf`, everything except the final
`last_rfs_type = rfs_type` assignment; `t` is the class of the current
pulse.  Returns the emitted candidate (0 = none) and the successor state. -/
def parse_core523 (s : State523) (t : Sig523) : Nat × State523 :=
  if s.last_rfs_type = Sig523.BITSTREAM_OFF ∨ s.chunk_open = false then
    -- preamble-opener counting branch
    let c := if t = Sig523.BITSTREAM_ON then s.bitstream_opener_count + 1
             else s.bitstream_opener_count
    if c = 4 then
      if s.chunk_open = false then
        (0, { open_chunk523 s with bitstream_opener_count := 0 })
      else (0, { s with bitstream_opener_count := 0 })
    else (0, { s with bitstream_opener_count := c })
  else if s.last_rfs_type = Sig523.BIT_0_OFF ∧ s.chunk_open = true then
    -- zero-bit accumulation branch; the branch ends with
    -- `bitstream_opener_count = 0` on every path
    if t = Sig523.BIT_0_ON ∧ s.bitstream_size < 48 then
      if s.bitstream_size + 1 = 48 then
        (s.bitstream, { close_bitstream523 s with bitstream_opener_count := 0 })
      else
        (0, { s with bitstream_size := s.bitstream_size + 1,
                     bitstream_opener_count := 0 })
    else if t = Sig523.BIT_1_ON ∧ s.bitstream_size = 48 then
      (s.bitstream, { close_bitstream523 s with bitstream_opener_count := 0 })
    else if t = Sig523.CHUNK_END then
      (if s.bitstream_size = 48 then s.bitstream else 0,
       { close_chunk523 s with bitstream_opener_count := 0 })
    else (0, { s with bitstream_opener_count := 0 })
  else if s.last_rfs_type = Sig523.BIT_1_OFF ∧ s.chunk_open = true then
    -- one-bit accumulation branch (no opener-count reset here)
    if t = Sig523.BIT_1_ON ∧ s.bitstream_size < 48 then
      let nb := s.bitstream ||| (1 <<< (48 - s.bitstream_size - 1))
      if s.bitstream_size + 1 = 48 then
        (nb, close_bitstream523 s)
      else
        (0, { s with bitstream := nb, bitstream_size := s.bitstream_size + 1 })
    else (0, s)
  else (0, s)

/-- `Acurite523::Model::parse_rf`. -/
def parse_rf523 (s : State523) (duration : Nat) (rfs : Nat) : Nat × State523 :=
  let t := get_rfs_type523 rfs duration
  let p := parse_core523 s t
  (p.1, { p.2 with last_rfs_type := t })

/-- Core of `Acurite609::Model::parse_rf`, everything except the final
`last_rfs_type = rfs_type` assignment (the extra assignment inside the
CHUNK_END branch of the source is subsumed by the final one). -/
def parse_core609 (s : State609) (t : Sig609) : Nat × State609 :=
  if s.last_rfs_type = Sig609.OFF ∧ s.chunk_open = false then
    if t = Sig609.BITSTREAM_START then (0, open_chunk609 s) else (0, s)
  else if s.last_rfs_type = Sig609.OFF ∧ s.chunk_open = true then
    if t = Sig609.BITSTREAM_START ∧ s.bitstream_open = false then
      (if s.bitstream_size = 40 then s.bitstream else 0, open_bitstream609 s)
    else if t = Sig609.BITSTREAM_END ∧ s.bitstream_open = true then
      (if s.bitstream_size = 40 then s.bitstream else 0, close_bitstream609 s)
    else if t = Sig609.CHUNK_END then
      (if s.bitstream_size = 40 then s.bitstream else 0, close_chunk609 s)
    else if (t = Sig609.BIT_0 ∨ t = Sig609.BIT_1) ∧ s.bitstream_open = true then
      let nb := if t = Sig609.BIT_1 ∧ s.bitstream_size < 40 then
                  s.bitstream ||| (1 <<< (40 - s.bitstream_size - 1))
                else s.bitstream
      if s.bitstream_size + 1 = 40 then
        (nb, close_bitstream609 s)
      else
        (0, { s with bitstream := nb, bitstream_size := s.bitstream_size + 1 })
    else (0, s)
  else (0, s)

/-- `Acurite609::Model::parse_rf`. -/
def parse_rf609 (s : State609) (duration : Nat) (rfs : Nat) : Nat × State609 :=
  let t := get_rfs_type609 rfs duration
  let p := parse_core609 s t
  (p.1, { p.2 with last_rfs_type := t })

/-- The cleared 00523 framing state (zero state after `clear()`). -/
def init523 : State523 :=
  { chunk_open := false, bitstream := 0, bitstream_size := 0,
    bitstream_open := false, bitstream_opener_count := 0,
    last_rfs_type := Sig523.INV }

/-- The cleared 00609 framing state (zero state after `clear()`). -/
def init609 : State609 :=
  { chunk_open := false, bitstream := 0, bitstream_size := 0,
    bitstream_open := false, last_rfs_type := Sig609.INV }

/-- An edge event delivered by the host: `duration` in microseconds and the
level `rfs` of the pulse that just ended. -/
structure Event where
  duration : Nat
  rfs : Nat
deriving DecidableEq, Repr

/-- One interface call on the 00523 framing machine: a `parse_rf` call or a
`clear` call. -/
inductive Op523 where
  | rf (duration rfs : Nat)
  | clr
deriving DecidableEq, Repr

/-- One interface call on the 00609 framing machine. -/
inductive Op609 where
  | rf (duration rfs : Nat)
  | clr
deriving DecidableEq, Repr

/-- Apply one call to the 00523 framing state. -/
def applyOp523 (s : State523) : Op523 → State523
  | Op523.rf d r => (parse_rf523 s d r).2
  | Op523.clr => clear523 s

/-- Apply one call to the 00609 framing state. -/
def applyOp609 (s : State609) : Op609 → State609
  | Op609.rf d r => (parse_rf609 s d r).2
  | Op609.clr => clear609 s

/-- Run a sequence of calls on the 00523 machine from the cleared state. -/
def runOps523 (ops : List Op523) : State523 :=
  ops.foldl applyOp523 init523

/-- Run a sequence of calls on the 00609 machine from the cleared state. -/
def runOps609 (ops : List Op609) : State609 :=
  ops.foldl applyOp609 init609

/-- Feed a list of edge events to the 00523 machine, keeping the result of
the most recent `parse_rf` call alongside the state. -/
def runEvents523 (evs : List Event) : Nat × State523 :=
  evs.foldl (fun p e => parse_rf523 p.2 e.duration e.rfs) (0, init523)

/-- Feed a list of edge events to the 00609 machine, keeping the result of
the most recent `parse_rf` call alongside the state. -/
def runEvents609 (evs : List Event) : Nat × State609 :=
  evs.foldl (fun p e => parse_rf609 p.2 e.duration e.rfs) (0, init609)

/-! ## Devices, validators and payloads -/

/-- Wire constants from `tempstation.h` / `acumonitor.h`. -/
def TAG_TEMPMONITOR : Nat := 0x38073162

def MODEL_ACURITE523 : Nat := 1592

def MODEL_ACURITE609 : Nat := 6585

def DEVICE_FREEZER : Nat := 9690

def DEVICE_FRIDGE : Nat := 7784

def DEVICE_OUTDOOR : Nat := 8501

def STATUS_OK : Nat := 1

def ACURITE523_SIG_FREEZER : Nat := 0xc049

def ACURITE523_SIG_FRIDGE : Nat := 0xc07c

def ACURITE609_CHANNEL_ID : Nat := 2

/-- The packed `Payload` struct (tag, model, device, status, battery,
temperature, humidity); the two `int16_t` fields are modelled as `Int`. -/
structure Payload where
  tag : Nat
  model : Nat
  device : Nat
  status : Nat
  battery : Nat
  temperature : Int
  humidity : Int
deriving DecidableEq, Repr

/-- C++ float-to-integer conversion truncates toward zero; `float` values
reaching it here are exact small rationals, so truncation of the rational
value coincides with the float conversion. -/
def cTrunc (q : Rat) : Int :=
  if q < 0 then -(Rat.floor (-q)) else Rat.floor q

/-- Reduction of an `Int` to the value of the corresponding `int16_t`. -/
def toInt16 (x : Int) : Int :=
  (x + 32768) % 65536 - 32768

/-- State of an `Acurite523::Device`. -/
structure Dev523 where
  device : Nat
  signature : Nat
  battery : Nat
  temperature : Rat
deriving DecidableEq, Repr

/-- `Acurite523::Device::Device`: signatures are hardcoded per device id. -/
def mkDev523 (device : Nat) : Dev523 :=
  { device := device, battery := 0, temperature := 0,
    signature :=
      if device = DEVICE_FREEZER then ACURITE523_SIG_FREEZER
      else if device = DEVICE_FRIDGE then ACURITE523_SIG_FRIDGE
      else 0 }

/-- State of an `Acurite609::Device`. -/
structure Dev609 where
  device : Nat
  signature : Nat
  battery : Nat
  temperature : Rat
  humidity : Rat
deriving DecidableEq, Repr

/-- `Acurite609::Device::Device`. -/
def mkDev609 (device : Nat) : Dev609 :=
  { device := device, signature := 0, battery := 0,
    temperature := 0, humidity := 0 }

/-- `Acurite523::Device::validate_checksum`: the low byte must equal the sum
of the five higher bytes; the `>> 40` term carries no `& 0xff` mask in the
source, the final `& 0xff` is applied to the whole sum. -/
def validate_checksum523 (b : Nat) : Bool :=
  decide ((b &&& 0xff) =
    ((((b >>> 8) &&& 0xff) + ((b >>> 16) &&& 0xff) + ((b >>> 24) &&& 0xff) +
      ((b >>> 32) &&& 0xff) + (b >>> 40)) &&& 0xff))

/-- The `for (int i = 0; i < 8; i++)` loop of
`Acurite523::Device::validate_parity`: add the low bit, shift right, `n`
times. -/
def count_on_bits : Nat → Nat → Nat
  | 0, _ => 0
  | n + 1, v => (v &&& 1) + count_on_bits n (v >>> 1)

/-- `Acurite523::Device::validate_parity`: the 8-iteration loop counts the
set bits of the low 8 bits of `value`; its parity must equal `parity`. -/
def validate_parity (parity : Nat) (value : Nat) : Bool :=
  decide (count_on_bits 8 value % 2 = parity)

/-- `Acurite609::Device::validate_checksum`: the low byte must equal the sum
of the four higher bytes; the `>> 32` term carries no mask. -/
def validate_checksum609 (b : Nat) : Bool :=
  decide ((b &&& 0xff) =
    ((((b >>> 8) &&& 0xff) + ((b >>> 16) &&& 0xff) + ((b >>> 24) &&& 0xff) +
      (b >>> 32)) &&& 0xff))

/-- `Acurite523::Device::validate_bitstream`: returns the C++ return value
together with the device state after the call (the source mutates the
device's latched fields only on the all-checks-passed path). -/
def validate_bitstream523 (dv : Dev523) (b : Nat) : Bool × Dev523 :=
  if b = 0 then (false, dv)
  else
    -- `uint16_t sig = bitstream >> 32`
    let sig := (b >>> 32) % 65536
    if sig ≠ dv.signature then (false, dv)
    else if validate_checksum523 b = false then (false, dv)
    else
      let bat := (b >>> 30) &&& 0x03
      let parity1 := (b >>> 15) &&& 1
      let byte1 := (b >>> 8) &&& 0x7f
      let parity2 := (b >>> 23) &&& 1
      let byte2 := (b >>> 16) &&& 0x7f
      if validate_parity parity1 byte1 = false ∨
         validate_parity parity2 byte2 = false then (false, dv)
      else
        let temp : Rat := ((((byte2 <<< 7) ||| byte1) : Nat) : Rat)
        let temp := (temp - 1800) / 18
        if temp < -40 ∨ 70 ≤ temp then (false, dv)
        else (true, { dv with battery := bat, temperature := temp })

/-- `Acurite523::Device::create_payload`. -/
def create_payload523 (dv : Dev523) (status : Nat) : Payload :=
  { tag := TAG_TEMPMONITOR, model := MODEL_ACURITE523, device := dv.device,
    status := status, battery := dv.battery,
    temperature := toInt16 (cTrunc (dv.temperature * 10)), humidity := 0 }

/-- The 13-bit raw temperature field of a 00609 candidate,
`(bitstream >> 15) & 0x1fff`. -/
def raw609 (b : Nat) : Nat :=
  (b >>> 15) &&& 0x1fff

/-- The temperature the 00609 validator computes.  The source line
`if ((uint16_t)temp & 0x1000 == 0x1000)` applies `==` before `&` (C
precedence), so the mask actually tested is `0x1000 == 0x1000`, i.e. `1`:
the value is negated exactly when the raw field is odd. -/
def temp609 (b : Nat) : Rat :=
  (if raw609 b &&& 1 ≠ 0 then -((8192 : Rat) - (raw609 b : Rat))
   else ((raw609 b : Nat) : Rat)) / 20

/-- The 7-bit humidity field of a 00609 candidate, `(bitstream >> 8) & 0x7f`. -/
def hum609 (b : Nat) : Rat :=
  (((b >>> 8) &&& 0x7f : Nat) : Rat)

/-- `Acurite609::Device::validate_bitstream`: returns the C++ return value
together with the device state after the call. -/
def validate_bitstream609 (dv : Dev609) (b : Nat) : Bool × Dev609 :=
  if b = 0 then (false, dv)
  else
    -- `uint16_t sig = bitstream >> 32`
    let sig := (b >>> 32) % 65536
    if dv.signature ≠ 0 ∧ dv.signature ≠ sig then (false, dv)
    else if ((b >>> 28) &&& 0x03) ≠ ACURITE609_CHANNEL_ID then (false, dv)
    else if validate_checksum609 b = false then (false, dv)
    else
      let bat := (b >>> 30) &&& 0x03
      if hum609 b < 1 ∨ 99 < hum609 b ∨ temp609 b < -40 ∨ 70 < temp609 b then
        (false, dv)
      else
        let dv := if dv.signature = 0 then { dv with signature := sig } else dv
        (true, { dv with battery := bat, humidity := hum609 b,
                         temperature := temp609 b })

/-- Modelled from the spec (§4.6 step 5), for comparison with the code's
`temp609`: the intended sign handling tests the 13-bit sign bit `0x1000`
and decodes two's-complement via `0x2000`. -/
def temp609_intended (b : Nat) : Rat :=
  (if raw609 b &&& 0x1000 = 0x1000 then -((8192 : Rat) - (raw609 b : Rat))
   else ((raw609 b : Nat) : Rat)) / 20

/-- Sum of all bytes of a `u64` above the low byte (bytes 1 through 7). -/
def byteSumAbove (b : Nat) : Nat :=
  ((b >>> 8) &&& 0xff) + ((b >>> 16) &&& 0xff) + ((b >>> 24) &&& 0xff) +
  ((b >>> 32) &&& 0xff) + ((b >>> 40) &&& 0xff) + ((b >>> 48) &&& 0xff) +
  ((b >>> 56) &&& 0xff)

/-! ## Concrete pulse streams -/

/-- `n` copies of an event list, concatenated. -/
def rep (n : Nat) (l : List Event) : List Event :=
  match n with
  | 0 => []
  | n + 1 => l ++ rep n l

/-- Four wide ON pulses: the 00523 preamble opener. -/
def opener523 : List Event :=
  rep 4 [{ duration := 600, rfs := 1 }]

/-- A 00523 zero bit: BIT_0_OFF then BIT_0_ON. -/
def bit0_523 : List Event :=
  [{ duration := 200, rfs := 0 }, { duration := 400, rfs := 1 }]

/-- A 00523 one bit: BIT_1_OFF then BIT_1_ON. -/
def bit1_523 : List Event :=
  [{ duration := 400, rfs := 0 }, { duration := 200, rfs := 1 }]

/-- A 00609 zero bit: OFF then BIT_0. -/
def bit0_609 : List Event :=
  [{ duration := 500, rfs := 0 }, { duration := 800, rfs := 1 }]

/-- A 00609 one bit: OFF then BIT_1. -/
def bit1_609 : List Event :=
  [{ duration := 500, rfs := 0 }, { duration := 1500, rfs := 1 }]

/-- A 00609 chunk/bitstream opener: OFF then BITSTREAM_START. -/
def start609 : List Event :=
  [{ duration := 500, rfs := 0 }, { duration := 8800, rfs := 1 }]

/-- A full 00523 block of 48 zero bits. -/
def zeroStream523 : List Event :=
  opener523 ++ rep 48 bit0_523

/-- A full 00523 block of 47 zero bits and a final one bit. -/
def lastOneStream523 : List Event :=
  opener523 ++ rep 47 bit0_523 ++ bit1_523

/-- A full 00609 block of 40 zero bits. -/
def zeroStream609 : List Event :=
  start609 ++ rep 40 bit0_609

/-- A full 00609 block of 39 zero bits and a final one bit. -/
def lastOneStream609 : List Event :=
  start609 ++ rep 39 bit0_609 ++ bit1_609

/-- A full 00609 block of 40 one bits (emits `0xFFFFFFFFFF`, whose trailing
byte is not a valid checksum of the higher bytes). -/
def onesStream609 : List Event :=
  start609 ++ rep 40 bit1_609

/-- A single pulse stream that drives BOTH framing machines to a full
buffer and then completes both on one shared final event: the 00523 is
filled to 47 bits, the 00609 to 39 bits, and the final `(400, 1)` pulse
classifies as BIT_0_ON for the 00523 and BIT_0 for the 00609, so both
accumulate their last bit and emit on the same call. -/
def sharedStream : List Event :=
  opener523 ++ bit1_523 ++ rep 46 bit0_523 ++
  start609 ++ bit1_609 ++ rep 38 bit0_609 ++
  [{ duration := 200, rfs := 0 }, { duration := 400, rfs := 1 }]

/-- View a list of edge events as `parse_rf` calls on the 00523. -/
def evOps523 (evs : List Event) : List Op523 :=
  evs.map fun e => Op523.rf e.duration e.rfs

/-- View a list of edge events as `parse_rf` calls on the 00609. -/
def evOps609 (evs : List Event) : List Op609 :=
  evs.map fun e => Op609.rf e.duration e.rfs

/-! ## Framing-state invariants -/

/-- Inductive invariant of the 00523 framing state: the buffer never holds
48 bits between calls, the accumulator fits in 48 bits and is zero below
its `bitstream_size` most significant positions, and an open bitstream
implies an open chunk. -/
def Inv523 (s : State523) : Prop :=
  s.bitstream_size < 48 ∧ s.bitstream < 2 ^ 48 ∧
  s.bitstream % 2 ^ (48 - s.bitstream_size) = 0 ∧
  (s.bitstream_open = true → s.chunk_open = true)

/-- Inductive invariant of the 00609 framing state. -/
def Inv609 (s : State609) : Prop :=
  s.bitstream_size < 40 ∧ s.bitstream < 2 ^ 40 ∧
  s.bitstream % 2 ^ (40 - s.bitstream_size) = 0 ∧
  (s.bitstream_open = true → s.chunk_open = true)

/-- A value that is zero on its low `n + 1` bits ORs with `2 ^ n` as an
addition. -/
theorem or_two_pow_eq_add {a n : Nat} (h : a % 2 ^ (n + 1) = 0) :
    a ||| 2 ^ n = a + 2 ^ n := by
  obtain ⟨k, hk⟩ := Nat.dvd_of_mod_eq_zero h
  subst hk
  apply Nat.eq_of_testBit_eq
  intro i
  have h0 : (0 : Nat) < 2 ^ (n + 1) := Nat.two_pow_pos _
  have h1 := Nat.testBit_mul_pow_two_add k h0 i
  have h2 := Nat.testBit_mul_pow_two_add k
    (Nat.pow_lt_pow_right (by norm_num) (Nat.lt_succ_self n)) i
  rw [Nat.add_zero] at h1
  rw [Nat.testBit_or, h1, h2]
  by_cases hi : i < n + 1
  · simp [hi]
  · have hne : n ≠ i := by omega
    simp [hi, Nat.testBit_two_pow_of_ne hne]

/-- Adding `2 ^ n` to a multiple of `2 ^ (n + 1)` stays below `2 ^ bl`. -/
theorem add_two_pow_lt {a n bl : Nat} (hn : n < bl) (ha : a < 2 ^ bl)
    (h : a % 2 ^ (n + 1) = 0) : a + 2 ^ n < 2 ^ bl := by
  obtain ⟨k, hk⟩ := Nat.dvd_of_mod_eq_zero h
  obtain ⟨m, hm⟩ : (2 ^ (n + 1) : Nat) ∣ 2 ^ bl := pow_dvd_pow 2 (by omega)
  subst hk
  rw [hm] at ha ⊢
  have hkm : k < m := Nat.lt_of_mul_lt_mul_left ha
  have hstep : 2 ^ (n + 1) * k + 2 ^ (n + 1) ≤ 2 ^ (n + 1) * m := by
    calc 2 ^ (n + 1) * k + 2 ^ (n + 1) = 2 ^ (n + 1) * (k + 1) := by ring
    _ ≤ 2 ^ (n + 1) * m := Nat.mul_le_mul_left _ hkm
  have hpow : (2 ^ n : Nat) < 2 ^ (n + 1) :=
    Nat.pow_lt_pow_right (by norm_num) (Nat.lt_succ_self n)
  omega

/-- A multiple of a larger power of two is a multiple of a smaller one. -/
theorem mod_pow_eq_zero_of_le {a j k : Nat} (hjk : j ≤ k)
    (h : a % 2 ^ k = 0) : a % 2 ^ j = 0 :=
  Nat.mod_eq_zero_of_dvd
    (dvd_trans (pow_dvd_pow 2 hjk) (Nat.dvd_of_mod_eq_zero h))

/-- `parse_rf` (core part) preserves the 00523 invariant. -/
theorem Inv523_core (s : State523) (t : Sig523) (h : Inv523 s) :
    Inv523 (parse_core523 s t).2 := by
  obtain ⟨hsz, hlt, hmod, hoc⟩ := h
  unfold parse_core523
  simp only [Inv523]
  split_ifs with h1 h2 h3 h4 h5 h6 h7 h8 h9 h10 h11 h12 h13 h14 h15 <;>
    dsimp only [open_chunk523, open_bitstream523, close_bitstream523,
      close_chunk523] <;>
    try exact ⟨hsz, hlt, hmod, hoc⟩
  all_goals try (refine ⟨?_, ?_, ?_, ?_⟩ <;>
    first
      | omega
      | exact hlt
      | exact hoc
      | exact Nat.two_pow_pos _
      | exact mod_pow_eq_zero_of_le (by omega) hmod
      | (simp_all; done))
  · -- one bit set without filling the buffer
    have hmod' : s.bitstream % 2 ^ (48 - s.bitstream_size - 1 + 1) = 0 := by
      have hn : 48 - s.bitstream_size - 1 + 1 = 48 - s.bitstream_size := by omega
      rw [hn]; exact hmod
    have heq : s.bitstream ||| 1 <<< (48 - s.bitstream_size - 1) =
        s.bitstream + 2 ^ (48 - s.bitstream_size - 1) := by
      rw [Nat.shiftLeft_eq, one_mul]; exact or_two_pow_eq_add hmod'
    have h48 : 48 - (s.bitstream_size + 1) = 48 - s.bitstream_size - 1 := by
      omega
    rw [heq, h48]
    exact ⟨by omega, add_two_pow_lt (by omega) hlt hmod',
      by rw [Nat.add_mod_right]; exact mod_pow_eq_zero_of_le (by omega) hmod',
      hoc⟩

/-- `parse_rf` preserves the 00523 invariant. -/
theorem Inv523_parse (s : State523) (d r : Nat) (h : Inv523 s) :
    Inv523 (parse_rf523 s d r).2 := by
  have := Inv523_core s (get_rfs_type523 r d) h
  simpa [Inv523, parse_rf523] using this

/-- Every interface call preserves the 00523 invariant. -/
theorem Inv523_apply (s : State523) (op : Op523) (h : Inv523 s) :
    Inv523 (applyOp523 s op) := by
  cases op with
  | rf d r => exact Inv523_parse s d r h
  | clr => simp [Inv523, applyOp523, clear523]

/-- Folding interface calls from an invariant state keeps the invariant. -/
theorem Inv523_foldl (ops : List Op523) :
    ∀ s : State523, Inv523 s → Inv523 (ops.foldl applyOp523 s) := by
  induction ops with
  | nil => intro s h; simpa using h
  | cons op rest ih =>
      intro s h
      simpa using ih _ (Inv523_apply s op h)

/-- The 00523 invariant holds after any call sequence from the cleared
state. -/
theorem Inv523_run (ops : List Op523) : Inv523 (runOps523 ops) :=
  Inv523_foldl ops init523 (by simp [Inv523, init523])

/-- `parse_rf` (core part) preserves the 00609 invariant. -/
theorem Inv609_core (s : State609) (t : Sig609) (h : Inv609 s) :
    Inv609 (parse_core609 s t).2 := by
  obtain ⟨hsz, hlt, hmod, hoc⟩ := h
  unfold parse_core609
  simp only [Inv609]
  split_ifs with h1 h2 h3 h4 h5 h6 h7 h8 h9 h10 h11 h12 h13 h14 h15 <;>
    dsimp only [open_chunk609, open_bitstream609, close_bitstream609,
      close_chunk609] <;>
    try exact ⟨hsz, hlt, hmod, hoc⟩
  all_goals try (refine ⟨?_, ?_, ?_, ?_⟩ <;>
    first
      | omega
      | exact hlt
      | exact hoc
      | exact Nat.two_pow_pos _
      | exact mod_pow_eq_zero_of_le (by omega) hmod
      | (simp_all; done))
  · -- a one bit set without filling the buffer
    have hmod' : s.bitstream % 2 ^ (40 - s.bitstream_size - 1 + 1) = 0 := by
      have hn : 40 - s.bitstream_size - 1 + 1 = 40 - s.bitstream_size := by
        omega
      rw [hn]; exact hmod
    have heq : s.bitstream ||| 1 <<< (40 - s.bitstream_size - 1) =
        s.bitstream + 2 ^ (40 - s.bitstream_size - 1) := by
      rw [Nat.shiftLeft_eq, one_mul]; exact or_two_pow_eq_add hmod'
    have h40 : 40 - (s.bitstream_size + 1) = 40 - s.bitstream_size - 1 := by
      omega
    rw [heq, h40]
    exact ⟨by omega, add_two_pow_lt (by omega) hlt hmod',
      by rw [Nat.add_mod_right]; exact mod_pow_eq_zero_of_le (by omega) hmod',
      hoc⟩

/-- `parse_rf` preserves the 00609 invariant. -/
theorem Inv609_parse (s : State609) (d r : Nat) (h : Inv609 s) :
    Inv609 (parse_rf609 s d r).2 := by
  have := Inv609_core s (get_rfs_type609 r d) h
  simpa [Inv609, parse_rf609] using this

/-- Every interface call preserves the 00609 invariant. -/
theorem Inv609_apply (s : State609) (op : Op609) (h : Inv609 s) :
    Inv609 (applyOp609 s op) := by
  cases op with
  | rf d r => exact Inv609_parse s d r h
  | clr => simp [Inv609, applyOp609, clear609]

/-- Folding interface calls from an invariant state keeps the invariant. -/
theorem Inv609_foldl (ops : List Op609) :
    ∀ s : State609, Inv609 s → Inv609 (ops.foldl applyOp609 s) := by
  induction ops with
  | nil => intro s h; simpa using h
  | cons op rest ih =>
      intro s h
      simpa using ih _ (Inv609_apply s op h)

/-- The 00609 invariant holds after any call sequence from the cleared
state. -/
theorem Inv609_run (ops : List Op609) : Inv609 (runOps609 ops) :=
  Inv609_foldl ops init609 (by simp [Inv609, init609])

/-- From an invariant 00523 state, a candidate is emitted only by the two
bit-accumulating transitions at a 47-bit buffer, and the emitting call
leaves the chunk open with an empty buffer. -/
theorem emit_core523 (s : State523) (t : Sig523) (hI : Inv523 s)
    (hr : (parse_core523 s t).1 ≠ 0) :
    s.bitstream_size = 47 ∧ (t = Sig523.BIT_0_ON ∨ t = Sig523.BIT_1_ON) ∧
    (parse_core523 s t).2.chunk_open = true ∧
    (parse_core523 s t).2.bitstream_size = 0 := by
  obtain ⟨hsz, hlt, hmod, hoc⟩ := hI
  unfold parse_core523 at hr ⊢
  split_ifs at hr ⊢ with h1 h2 h3 h4 h5 h6 h7 h8 h9 h10 h11 h12 h13 h14 h15 <;>
    dsimp only [open_chunk523, open_bitstream523, close_bitstream523,
      close_chunk523] at hr ⊢ <;>
    try (exfalso; exact hr rfl)
  all_goals try (exfalso; revert hr; split <;> first | simp | (intro hx; omega))
  · exact ⟨by omega, Or.inl h6.1, h5.2, rfl⟩
  · exact absurd h8.2 (by omega)
  · exact absurd h10 (by omega)
  · exact ⟨by omega, Or.inr h12.1, h11.2, rfl⟩

/-- `emit_core523` phrased on `parse_rf`. -/
theorem emit523 (s : State523) (d r : Nat) (hI : Inv523 s)
    (hr : (parse_rf523 s d r).1 ≠ 0) :
    s.bitstream_size = 47 ∧
    (get_rfs_type523 r d = Sig523.BIT_0_ON ∨
      get_rfs_type523 r d = Sig523.BIT_1_ON) ∧
    (parse_rf523 s d r).2.chunk_open = true ∧
    (parse_rf523 s d r).2.bitstream_size = 0 := by
  have h := emit_core523 s (get_rfs_type523 r d) hI
    (by simpa [parse_rf523] using hr)
  simpa [parse_rf523] using h

/-- From an invariant 00609 state, a candidate is emitted only by the
bit-accumulating transition at a 39-bit buffer, and the emitting call
leaves the chunk open with an empty buffer. -/
theorem emit_core609 (s : State609) (t : Sig609) (hI : Inv609 s)
    (hr : (parse_core609 s t).1 ≠ 0) :
    s.bitstream_size = 39 ∧ (t = Sig609.BIT_0 ∨ t = Sig609.BIT_1) ∧
    (parse_core609 s t).2.chunk_open = true ∧
    (parse_core609 s t).2.bitstream_size = 0 := by
  obtain ⟨hsz, hlt, hmod, hoc⟩ := hI
  unfold parse_core609 at hr ⊢
  split_ifs at hr ⊢ with h1 h2 h3 h4 h5 h6 h7 h8 h9 h10 h11 h12 h13 h14 h15 <;>
    dsimp only [open_chunk609, open_bitstream609, close_bitstream609,
      close_chunk609] at hr ⊢ <;>
    try (exfalso; exact hr rfl)
  · exact absurd h5 (by omega)
  · exact absurd h7 (by omega)
  · exact absurd h9 (by omega)
  · exact ⟨by omega, h10.1, h3.2, rfl⟩
  · exact ⟨by omega, h10.1, h3.2, rfl⟩

/-- `emit_core609` phrased on `parse_rf`. -/
theorem emit609 (s : State609) (d r : Nat) (hI : Inv609 s)
    (hr : (parse_rf609 s d r).1 ≠ 0) :
    s.bitstream_size = 39 ∧
    (get_rfs_type609 r d = Sig609.BIT_0 ∨ get_rfs_type609 r d = Sig609.BIT_1) ∧
    (parse_rf609 s d r).2.chunk_open = true ∧
    (parse_rf609 s d r).2.bitstream_size = 0 := by
  have h := emit_core609 s (get_rfs_type609 r d) hI
    (by simpa [parse_rf609] using hr)
  simpa [parse_rf609] using h

/-- The low byte as a remainder. -/
theorem and_255_eq_mod (x : Nat) : x &&& 255 = x % 256 := by
  have h := Nat.and_pow_two_sub_one_eq_mod x 8
  norm_num at h
  exact h

/-- A 00523 acceptance implies the checksum test passed. -/
theorem validate523_checksum (dv : Dev523) (b : Nat)
    (h : (validate_bitstream523 dv b).1 = true) :
    validate_checksum523 b = true := by
  unfold validate_bitstream523 at h
  split_ifs at h with h1 h2 h3 h4 <;> simp_all

/-- A 00609 acceptance implies the checksum test passed. -/
theorem validate609_checksum (dv : Dev609) (b : Nat)
    (h : (validate_bitstream609 dv b).1 = true) :
    validate_checksum609 b = true := by
  unfold validate_bitstream609 at h
  split_ifs at h with h1 h2 h3 h4 h5 <;> simp_all

/-- For a 48-bit word, the source's five-byte checksum formula coincides
with "low byte = sum of all higher bytes mod 256". -/
theorem checksum523_bytes {b : Nat} (hb : b < 2 ^ 48)
    (h : validate_checksum523 b = true) :
    b &&& 0xff = byteSumAbove b % 256 := by
  unfold validate_checksum523 at h
  replace h := of_decide_eq_true h
  unfold byteSumAbove
  simp only [and_255_eq_mod, Nat.shiftRight_eq_div_pow] at h ⊢
  norm_num at h hb ⊢
  have h48 : b / 281474976710656 = 0 := by omega
  have h56 : b / 72057594037927936 = 0 := by omega
  have h40 : b / 1099511627776 % 256 = b / 1099511627776 :=
    Nat.mod_eq_of_lt (by omega)
  rw [h48, h56, h40]
  simpa using h

/-- For a 40-bit word, the source's four-byte checksum formula coincides
with "low byte = sum of all higher bytes mod 256". -/
theorem checksum609_bytes {b : Nat} (hb : b < 2 ^ 40)
    (h : validate_checksum609 b = true) :
    b &&& 0xff = byteSumAbove b % 256 := by
  unfold validate_checksum609 at h
  replace h := of_decide_eq_true h
  unfold byteSumAbove
  simp only [and_255_eq_mod, Nat.shiftRight_eq_div_pow] at h ⊢
  norm_num at h hb ⊢
  have h40 : b / 1099511627776 = 0 := by omega
  have h48 : b / 281474976710656 = 0 := by omega
  have h56 : b / 72057594037927936 = 0 := by omega
  have h32 : b / 4294967296 % 256 = b / 4294967296 :=
    Nat.mod_eq_of_lt (by omega)
  rw [h40, h48, h56, h32]
  simpa using h

/-- The raw 00609 temperature field is a 13-bit value. -/
theorem raw609_lt (b : Nat) : raw609 b < 8192 := by
  unfold raw609
  have := Nat.and_le_right (n := b >>> 15) (m := 0x1fff)
  omega

/-- The buggy parity-based sign test and the spec's intended sign-bit test
agree on every raw value whose decoded temperature lands in the accepted
range `[-40, 70]`. -/
theorem temp609_eq_intended {b : Nat} (hlo : -40 ≤ temp609 b)
    (hhi : temp609 b ≤ 70) : temp609 b = temp609_intended b := by
  have hlt := raw609_lt b
  unfold temp609 at hlo hhi ⊢
  unfold temp609_intended
  rcases Nat.even_or_odd (raw609 b) with he | ho
  · -- even raw: the code keeps the value positive; being in range forces
    -- raw ≤ 1400, so the 0x1000 sign bit is clear and both sides agree
    have hmod2 : raw609 b % 2 = 0 := Nat.even_iff.mp he
    rw [Nat.and_one_is_mod] at hhi ⊢
    rw [hmod2] at hhi ⊢
    rw [if_neg (by simp)] at hhi ⊢
    have hhi2 : (raw609 b : Rat) ≤ 1400 := by linarith
    have hle : raw609 b ≤ 1400 := by exact_mod_cast hhi2
    have h12 : (4096 : Nat) = 2 ^ 12 := by norm_num
    have ht : (raw609 b).testBit 12 = false := by
      rw [Nat.testBit_to_div_mod]
      have hz : raw609 b / 2 ^ 12 = 0 := by
        rw [(by norm_num : (2 : Nat) ^ 12 = 4096)]
        omega
      rw [hz]
      simp
    have hbit : raw609 b &&& 4096 = 0 := by
      rw [h12, Nat.and_two_pow, ht]
      simp
    rw [hbit, if_neg (by norm_num)]
  · -- odd raw: the code negates; being in range forces raw ≥ 7392, so the
    -- 0x1000 sign bit is set and the intended decoding also negates
    have hmod2 : raw609 b % 2 = 1 := Nat.odd_iff.mp ho
    rw [Nat.and_one_is_mod] at hlo ⊢
    rw [hmod2] at hlo ⊢
    rw [if_pos (by simp)] at hlo ⊢
    have hlo2 : (7392 : Rat) ≤ (raw609 b : Rat) := by linarith
    have hge : 7392 ≤ raw609 b := by exact_mod_cast hlo2
    have ht : (raw609 b).testBit 12 = true := by
      rw [Nat.testBit_to_div_mod]
      have ho2 : raw609 b / 2 ^ 12 = 1 := by
        rw [(by norm_num : (2 : Nat) ^ 12 = 4096)]
        omega
      rw [ho2]
      decide
    have hbit : raw609 b &&& 4096 = 4096 := by
      rw [(by norm_num : (4096 : Nat) = 2 ^ 12), Nat.and_two_pow, ht]
      simp
    rw [hbit, if_pos rfl]

/-- On every candidate the 00609 validator accepts, the temperature it
latches agrees with the spec's intended sign handling. -/
theorem validate609_temp (dv : Dev609) (b : Nat)
    (h : (validate_bitstream609 dv b).1 = true) :
    (validate_bitstream609 dv b).2.temperature = temp609_intended b := by
  unfold validate_bitstream609 at h ⊢
  split_ifs at h ⊢ with h1 h2 h3 h4 h5 <;> try simp_all
  · exact temp609_eq_intended h4.2.2.1 h4.2.2.2
  · split_ifs at h ⊢ with hsig
    exact temp609_eq_intended h4.2.2.1 h4.2.2.2

/-- Every 00523 validation either leaves the device untouched or accepts. -/
theorem validate523_cases (dv : Dev523) (b : Nat) :
    (validate_bitstream523 dv b).2 = dv ∨
    (validate_bitstream523 dv b).1 = true := by
  simp only [validate_bitstream523]
  split_ifs <;> simp

/-- Every 00609 validation either leaves the device untouched or accepts. -/
theorem validate609_cases (dv : Dev609) (b : Nat) :
    (validate_bitstream609 dv b).2 = dv ∨
    (validate_bitstream609 dv b).1 = true := by
  simp only [validate_bitstream609]
  split_ifs <;> simp

/-- A rejected candidate leaves a 00523 device's latched fields unchanged. -/
theorem validate523_reject (dv : Dev523) (b : Nat)
    (h : (validate_bitstream523 dv b).1 = false) :
    (validate_bitstream523 dv b).2 = dv := by
  rcases validate523_cases dv b with hc | hc
  · exact hc
  · simp [hc] at h

/-- A rejected candidate leaves a 00609 device's latched fields unchanged. -/
theorem validate609_reject (dv : Dev609) (b : Nat)
    (h : (validate_bitstream609 dv b).1 = false) :
    (validate_bitstream609 dv b).2 = dv := by
  rcases validate609_cases dv b with hc | hc
  · exact hc
  · simp [hc] at h

/-- Call sequence driving the 00523 machine to a 47-bit buffer, one
BIT_1_OFF pulse short of emitting. -/
def demoOps523 : List Op523 :=
  evOps523 (opener523 ++ rep 47 bit0_523 ++ [{ duration := 400, rfs := 0 }])

/-- The BIT_1_ON pulse completing `demoOps523`'s block. -/
def demoEvent523 : Event :=
  { duration := 200, rfs := 1 }

/-- Call sequence driving the 00609 machine to a 39-bit buffer plus the
final idle pulse. -/
def demoOps609 : List Op609 :=
  evOps609 (start609 ++ rep 39 bit0_609 ++ [{ duration := 500, rfs := 0 }])

/-- The BIT_1 pulse completing `demoOps609`'s block. -/
def demoEvent609 : Event :=
  { duration := 1500, rfs := 1 }

/-! ## Concrete evaluations

`Rat.mul` and `Rat.inv` are `@[irreducible]`, so concrete values flowing
through the validators' `Rat` arithmetic are computed with `norm_num`;
all pure `Nat`/`Bool` computations are settled by `decide`. -/

/-- `Rat.floor` agrees with `Int.floor` on `ℚ`. -/
theorem rat_floor_eq_intFloor (q : Rat) : Rat.floor q = ⌊q⌋ := by
  rw [Rat.floor_def', Rat.floor_def]

/-- The S4 block: raw = 0x1F82 is even, so the buggy test keeps it
positive and the code computes 8066/20 = 403.3 °C. -/
theorem temp609_S4 : temp609 0xC0AFC14575 = 4033 / 10 := by
  have hraw : raw609 0xC0AFC14575 = 8066 := by decide
  unfold temp609
  rw [hraw]
  have hodd : (8066 : Nat) &&& 1 = 0 := by decide
  rw [hodd]
  norm_num

/-- The S4 block under the spec's intended decoding: the 0x1000 bit of
0x1F82 is set, so −(0x2000 − 0x1F82)/20 = −6.3 °C. -/
theorem temp609_intended_S4 : temp609_intended 0xC0AFC14575 = -(63 / 10) := by
  have hraw : raw609 0xC0AFC14575 = 8066 := by decide
  unfold temp609_intended
  rw [hraw]
  have hbit : (8066 : Nat) &&& 4096 = 4096 := by decide
  rw [hbit]
  norm_num

/-- The S3 block: raw = 0x2B6 = 694, temperature 34.7 °C. -/
theorem temp609_S3 : temp609 0xC0A15B25E1 = 347 / 10 := by
  have hraw : raw609 0xC0A15B25E1 = 694 := by decide
  unfold temp609
  rw [hraw]
  have hodd : (694 : Nat) &&& 1 = 0 := by decide
  rw [hodd]
  norm_num

/-- The code rejects the S4 block: 403.3 °C fails the range filter. -/
theorem reject609_S4 :
    (validate_bitstream609 (mkDev609 DEVICE_OUTDOOR) 0xC0AFC14575).1 =
      false := by
  have hcha : (0xC0AFC14575 : Nat) >>> 28 &&& 3 = 2 := by decide
  have hck : validate_checksum609 0xC0AFC14575 = true := by decide
  have hhum : hum609 0xC0AFC14575 = 69 := by decide
  simp only [validate_bitstream609, mkDev609, ACURITE609_CHANNEL_ID, hcha,
    hck, hhum, temp609_S4]
  norm_num

/-- The 00609 validator accepts the S3 block on a fresh outdoor device and
latches signature 0xC0, low battery, 34.7 °C and 37 %. -/
theorem accept609_S3 :
    validate_bitstream609 (mkDev609 DEVICE_OUTDOOR) 0xC0A15B25E1 =
      (true, { device := DEVICE_OUTDOOR, signature := 0xC0, battery := 2,
               temperature := 347 / 10, humidity := 37 }) := by
  have hsig : (0xC0A15B25E1 : Nat) >>> 32 % 65536 = 0xC0 := by decide
  have hcha : (0xC0A15B25E1 : Nat) >>> 28 &&& 3 = 2 := by decide
  have hbat : (0xC0A15B25E1 : Nat) >>> 30 &&& 3 = 2 := by decide
  have hck : validate_checksum609 0xC0A15B25E1 = true := by decide
  have hhum : hum609 0xC0A15B25E1 = 37 := by decide
  simp only [validate_bitstream609, mkDev609, ACURITE609_CHANNEL_ID,
    DEVICE_OUTDOOR, hsig, hcha, hbat, hck, hhum, temp609_S3]
  norm_num

/-- The 00523 validator accepts the 48-bit S1 freezer block and latches
battery 3 (bits 31..30 fall inside the third signature byte 0xC9) and
−166/9 ≈ −18.44 °C. -/
theorem accept523_S1 :
    validate_bitstream523 (mkDev523 DEVICE_FREEZER) 0xC049C98B3C99 =
      (true, { device := DEVICE_FREEZER, signature := ACURITE523_SIG_FREEZER,
               battery := 3, temperature := -(166 / 9) }) := by
  have hsig : (0xC049C98B3C99 : Nat) >>> 32 % 65536 = 0xC049 := by decide
  have hbat : (0xC049C98B3C99 : Nat) >>> 30 &&& 3 = 3 := by decide
  have hck : validate_checksum523 0xC049C98B3C99 = true := by decide
  have hp1 : validate_parity ((0xC049C98B3C99 : Nat) >>> 15 &&& 1)
      ((0xC049C98B3C99 : Nat) >>> 8 &&& 0x7f) = true := by decide
  have hp2 : validate_parity ((0xC049C98B3C99 : Nat) >>> 23 &&& 1)
      ((0xC049C98B3C99 : Nat) >>> 16 &&& 0x7f) = true := by decide
  have hrawv : ((0xC049C98B3C99 : Nat) >>> 16 &&& 0x7f) <<< 7 |||
      (0xC049C98B3C99 : Nat) >>> 8 &&& 0x7f = 1468 := by decide
  simp only [validate_bitstream523, mkDev523, DEVICE_FREEZER,
    ACURITE523_SIG_FREEZER, hsig, hbat, hck, hp1, hp2, hrawv]
  norm_num

/-- Packing the S1 record: −166/9 × 10 = −184.4 truncates to −184. -/
theorem payload_S1 :
    create_payload523
      { device := DEVICE_FREEZER, signature := ACURITE523_SIG_FREEZER,
        battery := 3, temperature := -(166 / 9) } STATUS_OK =
      { tag := 0x38073162, model := 1592, device := 9690, status := 1,
        battery := 3, temperature := -184, humidity := 0 } := by
  have h10 : (-(166 / 9) : Rat) * 10 = -(1660 / 9) := by norm_num
  have hneg : (-(1660 / 9) : Rat) < 0 := by norm_num
  have hfl : Rat.floor (-(-(1660 / 9) : Rat)) = 184 := by
    rw [rat_floor_eq_intFloor]
    norm_num
  simp only [create_payload523, cTrunc, toInt16, h10, hneg, if_pos, hfl,
    TAG_TEMPMONITOR, MODEL_ACURITE523, DEVICE_FREEZER, STATUS_OK]
  norm_num

/-! ## Claim theorems -/

/-- C1: 00609 temperature sign decoding.  The spec's decoding rule (negate
exactly when the 0x1000 sign bit of the 13-bit raw field is set) is the
documented intent, but the source line `(uint16_t)temp & 0x1000 == 0x1000`
applies `==` before `&`, so the code masks with 1 and negates exactly when
the raw field is odd.  On the doc's own S4 block `0xC0AFC14575`
(raw = 0x1F82, even) the code therefore computes +403.3 °C and rejects a
candidate the claim (and the repo's documentation) says is accepted at
−(0x2000 − 0x1F82)/20 °C.  The final conjunct shows the claim's decoding
formula does hold on every candidate the code accepts: inside [−40, 70]
the buggy test agrees with the intended one. -/
theorem claim_C1_sign_decoding :
    (validate_bitstream609 (mkDev609 DEVICE_OUTDOOR) 0xC0AFC14575).1 = false ∧
    raw609 0xC0AFC14575 = 0x1F82 ∧
    temp609 0xC0AFC14575 = 4033 / 10 ∧
    temp609_intended 0xC0AFC14575 = -(63 / 10) ∧
    (∀ (dv : Dev609) (b : Nat), (validate_bitstream609 dv b).1 = true →
      (validate_bitstream609 dv b).2.temperature = temp609_intended b) :=
  ⟨reject609_S4, by decide, temp609_S4, temp609_intended_S4,
   fun dv b h => validate609_temp dv b h⟩

/-- Witness for C1's universal conjunct: the S3 block `0xC0A15B25E1` is
accepted and its latched temperature matches the intended decoding. -/
theorem claim_C1_witness :
    (validate_bitstream609 (mkDev609 DEVICE_OUTDOOR) 0xC0A15B25E1).1 = true ∧
    (validate_bitstream609 (mkDev609 DEVICE_OUTDOOR) 0xC0A15B25E1).2.temperature =
      temp609_intended 0xC0A15B25E1 :=
  ⟨by rw [accept609_S3],
   claim_C1_sign_decoding.2.2.2.2 (mkDev609 DEVICE_OUTDOOR) 0xC0A15B25E1
     (by rw [accept609_S3])⟩

/-- C2 counterexample: `Acurite609::Model::clear()` does NOT reset
`chunk_open` (the source comment reads "Only manually reset chunk status
in parse_rf"), contradicting the claim that the 00609 `clear()` resets
every field of the framing state. -/
theorem claim_C2_counterexample :
    (clear609 { chunk_open := true, bitstream := 5, bitstream_size := 3,
                bitstream_open := true,
                last_rfs_type := Sig609.BIT_0 }).chunk_open = true := by
  decide

/-- C2 (amended): both models' `clear()` reset `bitstream`,
`bitstream_size`, `bitstream_open` and `last_rfs_type` (plus
`bitstream_opener_count` for the 00523) and both leave `chunk_open`
unchanged. -/
theorem claim_C2_clear_behavior (s : State523) (s6 : State609) :
    clear523 s = { chunk_open := s.chunk_open, bitstream := 0,
                   bitstream_size := 0, bitstream_open := false,
                   bitstream_opener_count := 0,
                   last_rfs_type := Sig523.INV } ∧
    clear609 s6 = { chunk_open := s6.chunk_open, bitstream := 0,
                    bitstream_size := 0, bitstream_open := false,
                    last_rfs_type := Sig609.INV } :=
  ⟨rfl, rfl⟩

/-- C4 counterexample: the value `0xC0498B3C99` quoted by the claim (and by
the spec's S1) is a 40-bit word, not the 48-bit S1 block: its top 16 bits
are `0x00C0`, the freezer signature check fails and the freezer device
rejects it. -/
theorem claim_C4_counterexample :
    (validate_bitstream523 (mkDev523 DEVICE_FREEZER) 0xC0498B3C99).1 =
      false := by
  decide

/-- C4 (amended): the S1 freezer block is the 48-bit word
`0xC049C98B3C99` (signature bytes C0 49 C9).  It is accepted: checksum
`0x299 & 0xff = 0x99`, both parity bits check, raw = 1468, temperature
(1468 − 1800)/18 = −166/9 ≈ −18.44 °C.  `create_payload(STATUS_OK)` then
packs battery = 3 (bits 31..30 of the third signature byte 0xC9) and
temperature = −184 (float-to-int16 truncation of −184.4), not the
claim's battery 0 and temperature −185. -/
theorem claim_C4_scenario_S1 :
    (validate_bitstream523 (mkDev523 DEVICE_FREEZER) 0xC049C98B3C99).1 =
      true ∧
    (validate_bitstream523 (mkDev523 DEVICE_FREEZER)
        0xC049C98B3C99).2.temperature = -(166 / 9) ∧
    create_payload523
        (validate_bitstream523 (mkDev523 DEVICE_FREEZER) 0xC049C98B3C99).2
        STATUS_OK =
      { tag := 0x38073162, model := 1592, device := 9690, status := 1,
        battery := 3, temperature := -184, humidity := 0 } := by
  rw [accept523_S1]
  refine ⟨rfl, rfl, ?_⟩
  have h := payload_S1
  simpa [DEVICE_FREEZER] using h

/-- C3: framing-state invariant.  After every sequence of `parse_rf` and
`clear` calls from the cleared state, on either model:
`bitstream_size ≤ BIT_LENGTH` (48 resp. 40), the accumulator fits in
`BIT_LENGTH` bits and is zero outside its `bitstream_size` most
significant positions, and `bitstream_open` implies `chunk_open`. -/
theorem claim_C3_invariant (ops : List Op523) (ops6 : List Op609) :
    ((runOps523 ops).bitstream_size ≤ 48 ∧
     (runOps523 ops).bitstream < 2 ^ 48 ∧
     (runOps523 ops).bitstream %
       2 ^ (48 - (runOps523 ops).bitstream_size) = 0 ∧
     ((runOps523 ops).bitstream_open = true →
       (runOps523 ops).chunk_open = true)) ∧
    ((runOps609 ops6).bitstream_size ≤ 40 ∧
     (runOps609 ops6).bitstream < 2 ^ 40 ∧
     (runOps609 ops6).bitstream %
       2 ^ (40 - (runOps609 ops6).bitstream_size) = 0 ∧
     ((runOps609 ops6).bitstream_open = true →
       (runOps609 ops6).chunk_open = true)) := by
  obtain ⟨h1, h2, h3, h4⟩ := Inv523_run ops
  obtain ⟨g1, g2, g3, g4⟩ := Inv609_run ops6
  exact ⟨⟨Nat.le_of_lt h1, h2, h3, h4⟩, ⟨Nat.le_of_lt g1, g2, g3, g4⟩⟩

set_option maxRecDepth 4000 in
/-- C5 counterexample: the framing machine performs no checksum test.  A
burst of 40 one bits makes the 00609 `parse_rf` emit `0xFFFFFFFFFF`,
whose low byte 0xFF differs from the sum of its higher bytes mod 256
(0xFC). -/
theorem claim_C5_counterexample :
    (runEvents609 onesStream609).1 ≠ 0 ∧
    ¬((runEvents609 onesStream609).1 &&& 0xff =
      byteSumAbove (runEvents609 onesStream609).1 % 256) := by
  decide

/-- C5 (amended): the checksum guarantee holds one stage later: every
candidate (of the framer's width) that a device's `validate_bitstream`
accepts has its low byte equal to the sum of its higher bytes mod 256;
the framer itself can emit checksum-inconsistent words, which the
validators then discard. -/
theorem claim_C5_validated_checksum (dv : Dev523) (dv6 : Dev609)
    (b b6 : Nat) (hb : b < 2 ^ 48) (hb6 : b6 < 2 ^ 40)
    (h : (validate_bitstream523 dv b).1 = true)
    (h6 : (validate_bitstream609 dv6 b6).1 = true) :
    b &&& 0xff = byteSumAbove b % 256 ∧
    b6 &&& 0xff = byteSumAbove b6 % 256 :=
  ⟨checksum523_bytes hb (validate523_checksum dv b h),
   checksum609_bytes hb6 (validate609_checksum dv6 b6 h6)⟩

/-- Witness for C5's amended statement at the accepted S1 and S3 blocks. -/
theorem claim_C5_witness :
    (0xC049C98B3C99 : Nat) &&& 0xff = byteSumAbove 0xC049C98B3C99 % 256 ∧
    (0xC0A15B25E1 : Nat) &&& 0xff = byteSumAbove 0xC0A15B25E1 % 256 :=
  claim_C5_validated_checksum (mkDev523 DEVICE_FREEZER)
    (mkDev609 DEVICE_OUTDOOR) 0xC049C98B3C99 0xC0A15B25E1
    (by decide) (by decide)
    (by rw [accept523_S1]) (by rw [accept609_S3])

/-- C6: 00609 signature latching and channel check.  A wrong channel field
is always rejected; a device with signature 0 ignores the signature field
and, on overall success, latches `bits[39..32]`; a device with a non-zero
stored signature rejects every candidate whose `bits[39..32]` differ. -/
theorem claim_C6_signature_latching (dv : Dev609) (b : Nat) :
    (((b >>> 28) &&& 0x03) ≠ 2 → (validate_bitstream609 dv b).1 = false) ∧
    (b < 2 ^ 40 → dv.signature = 0 →
      (validate_bitstream609 dv b).1 = true →
      (validate_bitstream609 dv b).2.signature = b >>> 32) ∧
    (b < 2 ^ 40 → dv.signature ≠ 0 → b >>> 32 ≠ dv.signature →
      (validate_bitstream609 dv b).1 = false) ∧
    (dv.signature = 0 → b ≠ 0 → ((b >>> 28) &&& 0x03) = 2 →
      validate_checksum609 b = true →
      1 ≤ hum609 b → hum609 b ≤ 99 →
      -40 ≤ temp609 b → temp609 b ≤ 70 →
      (validate_bitstream609 dv b).1 = true) := by
  have hmod : b < 2 ^ 40 → b >>> 32 % 65536 = b >>> 32 := by
    intro hb
    have : b >>> 32 < 65536 := by
      rw [Nat.shiftRight_eq_div_pow]
      omega
    exact Nat.mod_eq_of_lt this
  refine ⟨?_, ?_, ?_, ?_⟩
  · intro hcha
    unfold validate_bitstream609
    split_ifs <;> simp_all [ACURITE609_CHANNEL_ID]
  · intro hb hsig0 hacc
    rw [← hmod hb]
    unfold validate_bitstream609 at hacc ⊢
    split_ifs at hacc ⊢ <;> simp_all
  · intro hb hsig hne
    have hs : b >>> 32 % 65536 = b >>> 32 := hmod hb
    simp only [validate_bitstream609, hs]
    split_ifs with h1 h2 h3 h4 h5 h6 <;> try rfl
    all_goals exfalso
    all_goals push_neg at h2
    all_goals exact hne (h2 hsig).symm
  · intro hsig0 hb0 hcha hck hh1 hh2 ht1 ht2
    unfold validate_bitstream609
    rw [if_neg hb0, if_neg (by simp [hsig0]), if_neg (by simp [hcha,
      ACURITE609_CHANNEL_ID]), if_neg (by simp [hck]),
      if_neg (by push_neg; exact ⟨hh1, hh2, ht1, ht2⟩)]

/-- Witness for C6 at concrete inputs: channel-0 variant of S3 rejected;
fresh device accepts S3 and latches 0xC0; a device pre-latched to 5
rejects S3; the accept-regardless-of-signature clause applied to S3. -/
theorem claim_C6_witness :
    (validate_bitstream609 (mkDev609 DEVICE_OUTDOOR) 0xC0815B25E1).1 =
      false ∧
    (validate_bitstream609 (mkDev609 DEVICE_OUTDOOR)
        0xC0A15B25E1).2.signature = (0xC0A15B25E1 : Nat) >>> 32 ∧
    (validate_bitstream609
        { device := DEVICE_OUTDOOR, signature := 5, battery := 0,
          temperature := 0, humidity := 0 } 0xC0A15B25E1).1 = false ∧
    (validate_bitstream609 (mkDev609 DEVICE_OUTDOOR) 0xC0A15B25E1).1 =
      true := by
  refine ⟨(claim_C6_signature_latching _ _).1 (by decide),
    (claim_C6_signature_latching _ _).2.1 (by decide) (by decide)
      (by rw [accept609_S3]),
    (claim_C6_signature_latching _ _).2.2.1 (by decide) (by decide)
      (by decide),
    (claim_C6_signature_latching _ _).2.2.2 (by decide) (by decide)
      (by decide) (by decide) (by decide) (by decide) ?_ ?_⟩
  · rw [temp609_S3]; norm_num
  · rw [temp609_S3]; norm_num

/-- C7: rejection is atomic and framing survives it.  A rejected candidate
leaves both devices' latched fields untouched (so no payload can be built
from it), and when the 00523 framer emits a candidate from any reachable
state, the post-emission framing state has `chunk_open = true` and
`bitstream_size = 0`, ready for the next block of the burst. -/
theorem claim_C7_rejection_atomic (dv : Dev523) (b : Nat) (dv6 : Dev609)
    (b6 : Nat) (ops : List Op523) (e : Event)
    (h : (validate_bitstream523 dv b).1 = false)
    (h6 : (validate_bitstream609 dv6 b6).1 = false)
    (hr : (parse_rf523 (runOps523 ops) e.duration e.rfs).1 ≠ 0) :
    (validate_bitstream523 dv b).2 = dv ∧
    (validate_bitstream609 dv6 b6).2 = dv6 ∧
    (parse_rf523 (runOps523 ops) e.duration e.rfs).2.chunk_open = true ∧
    (parse_rf523 (runOps523 ops) e.duration e.rfs).2.bitstream_size = 0 := by
  obtain ⟨-, -, hco, hsz⟩ :=
    emit523 (runOps523 ops) e.duration e.rfs (Inv523_run ops) hr
  exact ⟨validate523_reject dv b h, validate609_reject dv6 b6 h6, hco, hsz⟩

set_option maxRecDepth 8000 in
/-- Witness for C7: a checksum-corrupted S1 block (low byte flipped to
0x98) is rejected by the freezer device and leaves it untouched; `1` is
rejected by the outdoor device; and the `demoOps523` run emits on its
final bit with the chunk still open. -/
theorem claim_C7_witness :
    (validate_bitstream523 (mkDev523 DEVICE_FREEZER) 0xC049C98B3C98).2 =
      mkDev523 DEVICE_FREEZER ∧
    (validate_bitstream609 (mkDev609 DEVICE_OUTDOOR) 1).2 =
      mkDev609 DEVICE_OUTDOOR ∧
    (parse_rf523 (runOps523 demoOps523) demoEvent523.duration
        demoEvent523.rfs).2.chunk_open = true ∧
    (parse_rf523 (runOps523 demoOps523) demoEvent523.duration
        demoEvent523.rfs).2.bitstream_size = 0 :=
  claim_C7_rejection_atomic (mkDev523 DEVICE_FREEZER) 0xC049C98B3C98
    (mkDev609 DEVICE_OUTDOOR) 1 demoOps523 demoEvent523
    (by decide) (by decide) (by decide)

set_option maxRecDepth 8000 in
/-- C8 counterexample: the two classification tables are not disjoint; on
`sharedStream` the final `(400 µs, level 1)` pulse classifies as
BIT_0_ON for the 00523 and BIT_0 for the 00609, completing a 48-bit and
a 40-bit block simultaneously, so both `parse_rf` calls return a
non-zero candidate on the same event. -/
theorem claim_C8_counterexample :
    (runEvents523 sharedStream).1 = 0x800000000000 ∧
    (runEvents609 sharedStream).1 = 0x8000000000 := by
  refine ⟨by decide, by decide⟩

set_option maxRecDepth 8000 in
/-- C8 (amended): there IS an edge-event stream driving both models from
their cleared states on which the 00523 and 00609 `parse_rf` both return
a non-zero candidate on the same event; the dispatcher's registration
order (00523 polled first) is what resolves such ties. -/
theorem claim_C8_both_emit :
    ∃ evs : List Event,
      (runEvents523 evs).1 ≠ 0 ∧ (runEvents609 evs).1 ≠ 0 :=
  ⟨sharedStream, by decide, by decide⟩

/-- C9: emission happens only at the final bit.  From the cleared state,
`bitstream_size < BIT_LENGTH` holds at the start of every `parse_rf`
call, and a call that returns a non-zero candidate is always a
bit-accumulating transition from a buffer of `BIT_LENGTH - 1` bits — the
emit-if-full branches guarded on a pre-existing full buffer never fire. -/
theorem claim_C9_emission_only_final (ops : List Op523) (e : Event)
    (ops6 : List Op609) (e6 : Event)
    (hr : (parse_rf523 (runOps523 ops) e.duration e.rfs).1 ≠ 0)
    (hr6 : (parse_rf609 (runOps609 ops6) e6.duration e6.rfs).1 ≠ 0) :
    (runOps523 ops).bitstream_size < 48 ∧
    (runOps609 ops6).bitstream_size < 40 ∧
    (runOps523 ops).bitstream_size = 47 ∧
    (get_rfs_type523 e.rfs e.duration = Sig523.BIT_0_ON ∨
      get_rfs_type523 e.rfs e.duration = Sig523.BIT_1_ON) ∧
    (runOps609 ops6).bitstream_size = 39 ∧
    (get_rfs_type609 e6.rfs e6.duration = Sig609.BIT_0 ∨
      get_rfs_type609 e6.rfs e6.duration = Sig609.BIT_1) := by
  obtain ⟨hs, ht, -, -⟩ :=
    emit523 (runOps523 ops) e.duration e.rfs (Inv523_run ops) hr
  obtain ⟨hs6, ht6, -, -⟩ :=
    emit609 (runOps609 ops6) e6.duration e6.rfs (Inv609_run ops6) hr6
  exact ⟨(Inv523_run ops).1, (Inv609_run ops6).1, hs, ht, hs6, ht6⟩

set_option maxRecDepth 8000 in
/-- Witness for C9: the demo runs fill each buffer to one bit short and
the completing pulse emits. -/
theorem claim_C9_witness :
    (runOps523 demoOps523).bitstream_size = 47 ∧
    (get_rfs_type523 demoEvent523.rfs demoEvent523.duration =
        Sig523.BIT_0_ON ∨
      get_rfs_type523 demoEvent523.rfs demoEvent523.duration =
        Sig523.BIT_1_ON) ∧
    (runOps609 demoOps609).bitstream_size = 39 ∧
    (get_rfs_type609 demoEvent609.rfs demoEvent609.duration =
        Sig609.BIT_0 ∨
      get_rfs_type609 demoEvent609.rfs demoEvent609.duration =
        Sig609.BIT_1) := by
  obtain ⟨-, -, h1, h2, h3, h4⟩ :=
    claim_C9_emission_only_final demoOps523 demoEvent523 demoOps609
      demoEvent609 (by decide) (by decide)
  exact ⟨h1, h2, h3, h4⟩

set_option maxRecDepth 8000 in
/-- C10: an all-zero block is unreportable.  Framing 48 (resp. 40) zero
bits makes `parse_rf` return 0 at the final bit (flipping only the final
bit to 1 yields the candidate 1, showing the same streams really frame a
block), and `validate_bitstream` of every device rejects the input 0, so
an all-zero block can never produce a payload. -/
theorem claim_C10_zero_block (dv : Dev523) (dv6 : Dev609) :
    (runEvents523 zeroStream523).1 = 0 ∧
    (runEvents609 zeroStream609).1 = 0 ∧
    (runEvents523 lastOneStream523).1 = 1 ∧
    (runEvents609 lastOneStream609).1 = 1 ∧
    (validate_bitstream523 dv 0).1 = false ∧
    (validate_bitstream609 dv6 0).1 = false := by
  refine ⟨by decide, by decide, by decide, by decide, rfl, rfl⟩

end Acurite
